import Mathlib

/-!
Verification of the watch-and-rerun supervisor (`src/lib.rs` of `xtask-watch`).

Shallow embedding conventions:
* An OS path is modelled as its list of components, each component being the
  list of characters of that component (`PathComp` / `PathM`).  Rust's
  `Path::starts_with` / `Path::strip_prefix` are component-wise, which the
  embedding mirrors with `List.isPrefixOf` / `stripPrefixP`.
  `Path::to_string_lossy` joins components with `/` (`pathStr`).
* `Instant` / `Duration` are modelled as natural numbers (whole time units);
  `Instant::elapsed()` at time `now` for a start time `t` is `now - t`
  (truncated subtraction, which agrees with the code since clocks are
  monotone).
* Filesystem existence (`Path::exists`) and the workspace root obtained from
  the global `metadata()` are passed as explicit parameters.
-/

/-- One path component, as its characters (Rust `OsStr` contents). -/
abbrev PathComp := List Char

/-- A filesystem path as a list of components (Rust `Path`/`PathBuf`). -/
abbrev PathM := List PathComp

/-- Rust `Path::strip_prefix` (component-wise): `some` of the remaining
components when `root` is a component-wise prefix of `p`, `none` (`Err`)
otherwise. -/
def stripPrefixP (root p : PathM) : Option PathM :=
  if root.isPrefixOf p then some (p.drop root.length) else none

/-- Rust `Path::to_string_lossy`: the components joined with `/`. -/
def pathStr (p : PathM) : List Char := List.intercalate ['/'] p

/-- The `Watch` configuration struct (src/lib.rs lines 205-223).  The paths
are taken in the canonical form `Watch::run` produces before any filtering
happens (lines 289-313). -/
structure Watch where
  watch_paths : List PathM
  exclude_paths : List PathM
  workspace_exclude_paths : List PathM
  debounce : Nat
deriving DecidableEq

/-- `Watch::is_excluded_path` (src/lib.rs lines 363-379): true when the path
lies under an `exclude_paths` entry (component-wise `Path::starts_with`), or
when the path stripped of the workspace root lies under a
`workspace_exclude_paths` entry. -/
def Watch.is_excluded_path (w : Watch) (workspace_root : PathM) (path : PathM) : Bool :=
  if w.exclude_paths.any (fun x => x.isPrefixOf path) then true
  else
    match stripPrefixP workspace_root path with
    | some stripped => w.workspace_exclude_paths.any (fun x => x.isPrefixOf stripped)
    | none => false

/-- `Watch::is_hidden_path` (src/lib.rs lines 381-387).  Note the Rust code
calls `.iter()` on the `Result` returned by `strip_prefix`, so the closure
sees the whole stripped path (at most one element), and
`to_string_lossy().starts_with('.')` tests the first character of the joined
relative path. -/
def Watch.is_hidden_path (w : Watch) (path : PathM) : Bool :=
  w.watch_paths.any fun x =>
    (stripPrefixP x path).any fun rel => (pathStr rel).head? == some '.'

/-- `Watch::is_backup_file` (src/lib.rs lines 389-395).  Same `Result::iter`
shape as `is_hidden_path`; `ends_with('~')` tests the last character of the
joined relative path. -/
def Watch.is_backup_file (w : Watch) (path : PathM) : Bool :=
  w.watch_paths.any fun x =>
    (stripPrefixP x path).any fun rel => (pathStr rel).getLast? == some '~'

/-- `notify::event::CreateKind`. -/
inductive CreateKind where
  | anyC | fileC | folderC | otherC
deriving DecidableEq

/-- `notify::event::RenameMode`. -/
inductive RenameMode where
  | anyR | toR | fromR | bothR | otherR
deriving DecidableEq

/-- `notify::event::ModifyKind`. -/
inductive ModifyKind where
  | anyM | dataM | metadataM | nameM (mode : RenameMode) | otherM
deriving DecidableEq

/-- `notify::event::RemoveKind`. -/
inductive RemoveKind where
  | anyRm | fileRm | folderRm | otherRm
deriving DecidableEq

/-- `notify::EventKind`. -/
inductive EventKind where
  | access | create (k : CreateKind) | modify (k : ModifyKind)
  | remove (k : RemoveKind) | other
deriving DecidableEq

/-- A `notify::Event`: affected paths plus a kind. -/
structure EventM where
  paths : List PathM
  kind : EventKind

/-- A watcher-level error (`notify::Error`), content irrelevant. -/
inductive WatchErrM where
  | watchErr

/-- The `WatchEventHandler` state (src/lib.rs lines 398-402): the
configuration and the `command_start` instant.  The `tx` channel side effect
is modelled as the boolean component of `handle_event`'s result. -/
structure WatchEventHandlerM where
  watch : Watch
  command_start : Nat

/-- Handler construction in `Watch::run` (src/lib.rs lines 317-321):
`command_start` is `Instant::now()` at the moment `run` sets up the watcher,
before the supervision loop starts. -/
def Watch.mkHandler (w : Watch) (startTime : Nat) : WatchEventHandlerM :=
  { watch := w, command_start := startTime }

/-- `WatchEventHandler::handle_event` (src/lib.rs lines 404-431).  Returns
whether a restart signal was sent on `tx` (line 423) together with the
updated handler state (`command_start := now`, line 421).  `fsExists` stands
for `Path::exists` and `workspace_root` for `metadata().workspace_root`. -/
def handle_event (h : WatchEventHandlerM) (fsExists : PathM → Bool)
    (workspace_root : PathM) (now : Nat) (ev : Except WatchErrM EventM) :
    Bool × WatchEventHandlerM :=
  match ev with
  | .ok event =>
      if event.paths.any (fun x =>
          !(h.watch.is_excluded_path workspace_root x)
          && fsExists x
          && !(h.watch.is_hidden_path x)
          && !(h.watch.is_backup_file x)
          && !(event.kind == EventKind.create CreateKind.anyC)
          && !(event.kind == EventKind.modify (ModifyKind.nameM RenameMode.anyR))
          && decide (h.watch.debounce ≤ now - h.command_start)) then
        (true, { h with command_start := now })
      else
        (false, h)
  | .error _ => (false, h)

/-- The spec's Debouncer view of the handler's timing state: the debounce
window together with `last_accepted` (the code's `command_start`). -/
structure DebouncerM where
  debounce : Nat
  last_accepted : Nat
deriving DecidableEq

/-- The debounce decision of `handle_event`, translated from src/lib.rs
line 418 (`self.command_start.elapsed() >= self.watch.debounce`) and
line 421 (`self.command_start = Instant::now()` on acceptance). -/
def DebouncerM.accept (d : DebouncerM) (now : Nat) : Bool × DebouncerM :=
  if d.debounce ≤ now - d.last_accepted then (true, { d with last_accepted := now })
  else (false, d)

/-!
Command pipeline and the supervision loop of `Watch::run`
(src/lib.rs lines 333-358, 500-545).
-/

/-- A spawn failure (`std::io::Error` from `Command::spawn`). -/
inductive SpawnErr where
  | notFound | permissionDenied
deriving DecidableEq

/-- A spawned child process as the generation loop observes it: the exit
status `SharedChild::wait().success()` eventually reports.  (Termination by
the loop thread is treated in the interleaving model below; here a child's
natural exit status is an environment-given fact.) -/
structure ChildRun where
  exitSuccess : Bool
deriving DecidableEq

/-- `CommandList` (src/lib.rs lines 500-504): a list of commands. -/
structure CommandListM (α : Type) where
  commands : List α
deriving DecidableEq

/-- `impl From<Vec<Command>> for CommandList` (src/lib.rs lines 514-520):
the conversion wraps the vector unchanged — there is no emptiness check or
any other validation. -/
def commandListFromVec {α : Type} (commands : List α) : CommandListM α :=
  { commands := commands }

/-- `CommandList::is_empty` (src/lib.rs lines 531-534). -/
def CommandListM.is_empty {α : Type} (cl : CommandListM α) : Bool :=
  cl.commands.isEmpty

/-- `CommandList::spawn` (src/lib.rs lines 539-545): run the stateful
callback on each command in order, stopping as soon as the callback returns
`false`.  Instrumented to also return the list of commands that were
actually spawned (the ones `process.spawn()` was called on, i.e. the ones
the `for` loop reached). -/
def spawnWithCallback {α σ : Type} (cb : σ → α → Bool × σ) :
    σ → List α → σ × List α
  | s, [] => (s, [])
  | s, c :: cs =>
      let r := cb s c
      if r.1 then
        let rest := spawnWithCallback cb r.2 cs
        (rest.1, c :: rest.2)
      else (r.2, [c])

/-- The callback `Watch::run` passes to `CommandList::spawn`
(src/lib.rs lines 340-349), acting on the shared child slot:
a spawn error is logged and the callback returns `false` (lines 341-344);
a spawned child replaces the slot (line 346) and the callback returns
`wait().success()` (line 347). -/
def runCallback (slot : Option ChildRun) (res : Except SpawnErr ChildRun) :
    Bool × Option ChildRun :=
  match res with
  | .error _ => (false, slot)
  | .ok child => (child.exitSuccess, some child)

/-- One pipeline generation of `Watch::run` (the thread body, src/lib.rs
lines 339-350): `CommandList::spawn` with `runCallback`, where `spawnRes`
gives each command's `Command::spawn` outcome.  Returns the final child slot
and the commands actually spawned. -/
def runGeneration {α : Type} (spawnRes : α → Except SpawnErr ChildRun)
    (slot : Option ChildRun) (cmds : List α) : Option ChildRun × List α :=
  spawnWithCallback (fun sl c => runCallback sl (spawnRes c)) slot cmds

/-- The supervision loop of `Watch::run` (src/lib.rs lines 333-358), one
entry of `gens` per loop iteration (i.e. per accepted restart signal, the
list ending when `rx.recv()` fails and the loop breaks).  Returns the final
slot and the per-generation spawned-command lists.  No error can escape the
loop: spawn failures are consumed by `runCallback`. -/
def runLoopTrace {α : Type} (spawnRes : α → Except SpawnErr ChildRun) :
    Option ChildRun → List (List α) → Option ChildRun × List (List α)
  | slot, [] => (slot, [])
  | slot, g :: gs =>
      let r := runGeneration spawnRes slot g
      let rest := runLoopTrace spawnRes r.1 gs
      (rest.1, r.2 :: rest.2)

/-- A fatal setup error of `Watch::run` before the loop starts:
canonicalization of an exclude or watch path failed (src/lib.rs lines
292-299, 306-313) or the watcher could not be initialized (lines 323-324). -/
inductive SetupErr where
  | cannotCanonicalize | watcherInitFailed
deriving DecidableEq

/-- `Watch::run` (src/lib.rs lines 285-361) at the level of its `Result`:
setup errors propagate with `?`; once the loop at lines 334-358 is reached,
the only exit is `rx.recv()` failing, after which `run` returns `Ok(())` —
regardless of any spawn failures or exit statuses inside `gens`. -/
def Watch.runModel {α : Type} (setup : Except SetupErr Unit)
    (spawnRes : α → Except SpawnErr ChildRun) (gens : List (List α)) :
    Except SetupErr Unit :=
  match setup with
  | .error e => .error e
  | .ok _ =>
      let _ := runLoopTrace spawnRes none gens
      .ok ()

/-!
Sequential model of `SharedChild::terminate` (src/lib.rs lines 470-497),
for the idempotence claim, which is about consecutive calls from the loop
thread with no interleaving.
-/

/-- Whether the OS process behind a child handle has terminated (observable
through `Child::try_wait`). -/
inductive ProcState where
  | runningP | exitedP
deriving DecidableEq

/-- A child process handle (`std::process::Child`) plus the environment
fact `termExits`: whether the process exits within the 2 s grace window
when it receives the graceful `SIGTERM`. -/
structure ChildProc where
  pid : Nat
  st : ProcState
  termExits : Bool
deriving DecidableEq

/-- A kill signal sent by `SharedChild::terminate`. -/
inductive Sig where
  | sigterm (pid : Nat) | sigkill (pid : Nat)
deriving DecidableEq

/-- `SharedChild::terminate` (src/lib.rs lines 470-497), sequentially:
with an empty slot the `if let` fails and nothing happens (line 471);
otherwise `libc::kill(pid, SIGTERM)` is sent unconditionally (lines
476-479), the grace loop polls `try_wait` for up to 2 s (lines 481-486,
during which the process exits iff it was running and reacts to `SIGTERM`),
and if `try_wait` still reports no exit the child is force-killed and
reaped (lines 489-495).  The slot is NOT cleared: the (now exited) child
stays in it.  Returns the new slot and the signals sent. -/
def SharedChild.terminate (slot : Option ChildProc) : Option ChildProc × List Sig :=
  match slot with
  | none => (none, [])
  | some c =>
      let afterGrace : ChildProc :=
        if c.st = ProcState.runningP ∧ c.termExits = true then
          { c with st := ProcState.exitedP }
        else c
      if afterGrace.st = ProcState.runningP then
        (some { afterGrace with st := ProcState.exitedP },
          [Sig.sigterm c.pid, Sig.sigkill c.pid])
      else
        (some afterGrace, [Sig.sigterm c.pid])

/-!
Interleaving model of the supervision loop (src/lib.rs lines 333-358)
together with the per-generation pipeline threads (lines 339-350, 539-545)
and the `SharedChild` operations they share (lines 438-497), for the
restart-ordering claim.

Threads: the loop thread of `Watch::run`, plus one detached pipeline thread
per generation (`thread::spawn` at line 339).  Shared state: the
`SharedChild` slot and its mutex.  A command of generation `g` at pipeline
position `i` is the child id `(g, i)`.  Timing (the 2 s grace window, the
10 ms/200 ms poll intervals) is abstracted into nondeterministic
interleaving; restart signals (`tx`/`rx`) are a pending-signal counter fed
nondeterministically by the event-handler thread; `Command::spawn` is
assumed to succeed (spawn failures are modelled by `runGeneration`). -/

/-- Status of the command process `(generation, index)`. -/
inductive CStatus where
  | notSpawned | runningC | exitedC (success : Bool) | killedC
deriving DecidableEq

/-- `Child::try_wait` on a process of the interleaving model: `some status`
once it has terminated (`success()` is `false` for a killed process),
`none` while it is still running. -/
def statusResult : CStatus → Option Bool
  | .notSpawned => none
  | .runningC => none
  | .exitedC b => some b
  | .killedC => some false

/-- Which thread holds the `SharedChild` mutex. -/
inductive LockOwner where
  | loopThread | pipeThread (g : Nat)
deriving DecidableEq

/-- Program counter of the loop thread (src/lib.rs lines 334-358):
spawn the generation thread (lines 336-350), block in `rx.recv()`
(line 353), call `terminate` (line 354: acquire the mutex, then — with it
held — signal and poll the slot's child, lines 470-497). -/
inductive LoopPhase where
  | spawnGenThread | recvEvent | termAcquire | termPoll (c : Nat × Nat)
deriving DecidableEq

/-- Program counter of one generation's pipeline thread
(`CommandList::spawn` with the `Watch::run` callback): spawn command `i`
(line 540), `SharedChild::replace` it (line 446), acquire the mutex for
`SharedChild::wait` (line 450), poll inside `wait` with the mutex held
(lines 450-467, remembering which child the locked slot held), done
(pipeline exhausted or callback returned `false`, line 543). -/
inductive PipePhase where
  | spawnCmd (i : Nat) | replAcquire (i : Nat) | waitAcquire (i : Nat)
  | waiting (i : Nat) (c : Option (Nat × Nat)) | doneP
deriving DecidableEq

/-- Global state of the interleaving model. -/
structure RunState where
  nCmds : Nat
  loopGen : Nat
  loopPh : LoopPhase
  pipes : Nat → Option PipePhase
  child : Nat × Nat → CStatus
  slot : Option (Nat × Nat)
  lock : Option LockOwner
  pending : Nat

/-- Initial state: `SharedChild::new()` (line 333, empty slot), loop about
to run its first iteration, no generation threads yet, pipeline length `n`. -/
def initState (n : Nat) : RunState :=
  { nCmds := n, loopGen := 0, loopPh := .spawnGenThread,
    pipes := fun _ => none, child := fun _ => .notSpawned,
    slot := none, lock := none, pending := 0 }

/-- One interleaved step of the system.  `loopGen` counts the completed
`terminate()` calls of the loop thread: it is incremented exactly when
`terminate` returns (the three `loopTerm…` return steps), so in a state
with `loopGen = g` the terminate calls for generations `0 … g-1` have
returned and the loop is working on generation `g`. -/
inductive Step : RunState → RunState → Prop where
  /-- Lines 336-350: the loop creates generation `loopGen`'s detached
  pipeline thread, then proceeds to `rx.recv()`. -/
  | loopSpawnThread (s : RunState) (h : s.loopPh = .spawnGenThread) :
      Step s { s with pipes := Function.update s.pipes s.loopGen (some (.spawnCmd 0)),
                      loopPh := .recvEvent }
  /-- Line 353: `rx.recv()` returns once a restart signal is pending. -/
  | loopRecv (s : RunState) (h : s.loopPh = .recvEvent) (hp : 0 < s.pending) :
      Step s { s with pending := s.pending - 1, loopPh := .termAcquire }
  /-- Line 471 with an empty slot: `terminate` acquires the free mutex,
  the `if let` fails, the mutex is released and `terminate` returns. -/
  | loopTermEmpty (s : RunState) (h : s.loopPh = .termAcquire)
      (hl : s.lock = none) (hs : s.slot = none) :
      Step s { s with loopGen := s.loopGen + 1, loopPh := .spawnGenThread }
  /-- Lines 471-479 with a child in the slot: `terminate` acquires the free
  mutex and sends `SIGTERM`, then polls while holding the mutex. -/
  | loopTermSig (s : RunState) (c : Nat × Nat) (h : s.loopPh = .termAcquire)
      (hl : s.lock = none) (hs : s.slot = some c) :
      Step s { s with lock := some .loopThread, loopPh := .termPoll c }
  /-- Lines 481-490: polling observes that the slot's child has terminated;
  the mutex is released and `terminate` returns.  The slot is not cleared. -/
  | loopTermObserveExit (s : RunState) (c : Nat × Nat) (h : s.loopPh = .termPoll c)
      (hc : s.child c ≠ .runningC) :
      Step s { s with lock := none, loopGen := s.loopGen + 1, loopPh := .spawnGenThread }
  /-- Lines 491-494: the grace window elapses with the child still running;
  it is force-killed and reaped, the mutex is released, `terminate` returns. -/
  | loopTermForceKill (s : RunState) (c : Nat × Nat) (h : s.loopPh = .termPoll c)
      (hc : s.child c = .runningC) :
      Step s { s with child := Function.update s.child c .killedC,
                      lock := none, loopGen := s.loopGen + 1, loopPh := .spawnGenThread }
  /-- Line 540-541: generation `g`'s thread spawns its command `i`
  (`process.spawn()` succeeds and the callback receives the child). -/
  | cmdSpawn (s : RunState) (g i : Nat) (h : s.pipes g = some (.spawnCmd i))
      (hi : i < s.nCmds) :
      Step s { s with child := Function.update s.child (g, i) .runningC,
                      pipes := Function.update s.pipes g (some (.replAcquire i)) }
  /-- Line 540: the `for` loop of `CommandList::spawn` is exhausted. -/
  | cmdsExhausted (s : RunState) (g i : Nat) (h : s.pipes g = some (.spawnCmd i))
      (hi : s.nCmds ≤ i) :
      Step s { s with pipes := Function.update s.pipes g (some .doneP) }
  /-- Line 346/446: `SharedChild::replace` — acquire the free mutex, write
  the freshly spawned child into the slot, release. -/
  | childReplace (s : RunState) (g i : Nat) (h : s.pipes g = some (.replAcquire i))
      (hl : s.lock = none) :
      Step s { s with slot := some (g, i),
                      pipes := Function.update s.pipes g (some (.waitAcquire i)) }
  /-- Line 450: `SharedChild::wait` acquires the free mutex and keeps it for
  the whole polling loop; it polls whatever child the slot holds now. -/
  | waitLock (s : RunState) (g i : Nat) (h : s.pipes g = some (.waitAcquire i))
      (hl : s.lock = none) :
      Step s { s with lock := some (.pipeThread g),
                      pipes := Function.update s.pipes g (some (.waiting i s.slot)) }
  /-- Lines 455-467 and 347: polling sees the child terminated; `wait`
  releases the mutex and returns its status.  On success the callback
  returns `true` and `CommandList::spawn` moves to the next command; on
  failure it returns `false` and the pipeline stops (line 543). -/
  | waitObserve (s : RunState) (g i : Nat) (c : Nat × Nat) (b : Bool)
      (h : s.pipes g = some (.waiting i (some c)))
      (hc : statusResult (s.child c) = some b) :
      Step s { s with lock := none,
                      pipes := Function.update s.pipes g
                        (some (if b then PipePhase.spawnCmd (i + 1) else .doneP)) }
  /-- Line 467: `wait` on an empty slot returns the default (successful)
  exit status (`unwrap_or_default`), so the callback continues. -/
  | waitEmptySlot (s : RunState) (g i : Nat) (h : s.pipes g = some (.waiting i none)) :
      Step s { s with lock := none,
                      pipes := Function.update s.pipes g (some (.spawnCmd (i + 1))) }
  /-- Environment: a running command process terminates on its own with
  some exit status (also covers exiting in reaction to `SIGTERM`). -/
  | childExits (s : RunState) (c : Nat × Nat) (b : Bool) (hc : s.child c = .runningC) :
      Step s { s with child := Function.update s.child c (.exitedC b) }
  /-- Environment: the event-handler thread accepts a change and sends a
  restart signal on `tx` (line 423). -/
  | eventArrives (s : RunState) :
      Step s { s with pending := s.pending + 1 }

/-- States reachable by the supervision loop from some initial state. -/
inductive Reach : RunState → Prop where
  | init (n : Nat) : Reach (initState n)
  | step {s s' : RunState} : Reach s → Step s s' → Reach s'

/-!
Concrete fixtures used by the counterexamples and witnesses.
-/

/-- Path component `root`. -/
def compRoot : PathComp := ['r', 'o', 'o', 't']

/-- Path component `src`. -/
def compSrc : PathComp := ['s', 'r', 'c']

/-- Path component `.hidden`. -/
def compHiddenDir : PathComp := ['.', 'h', 'i', 'd', 'd', 'e', 'n']

/-- Path component `file`. -/
def compFile : PathComp := ['f', 'i', 'l', 'e']

/-- Path component `.git`. -/
def compDotGit : PathComp := ['.', 'g', 'i', 't']

/-- Path component `HEAD`. -/
def compHead : PathComp := ['H', 'E', 'A', 'D']

/-- Path component `main.rs~`. -/
def compMainBak : PathComp := ['m', 'a', 'i', 'n', '.', 'r', 's', '~']

/-- Path component `foo~`. -/
def compFooTilde : PathComp := ['f', 'o', 'o', '~']

/-- Path component `bar`. -/
def compBar : PathComp := ['b', 'a', 'r']

/-- Path component `watch.rs`. -/
def compWatchRs : PathComp := ['w', 'a', 't', 'c', 'h', '.', 'r', 's']

/-- Path component `watch.rsx` (shares a string prefix with `watch.rs` but
is a different component). -/
def compWatchRsX : PathComp := ['w', 'a', 't', 'c', 'h', '.', 'r', 's', 'x']

/-- A `Watch` watching the single root `root`, nothing excluded,
debounce 0. -/
def wRootOnly : Watch :=
  { watch_paths := [[compRoot]], exclude_paths := [],
    workspace_exclude_paths := [], debounce := 0 }

/-- A `Watch` whose only configuration is the absolute exclusion entry
`src/watch.rs`. -/
def wExcl : Watch :=
  { watch_paths := [], exclude_paths := [[compSrc, compWatchRs]],
    workspace_exclude_paths := [], debounce := 0 }

/-- The `Watch` of the `exclude_relative_path` test (src/lib.rs lines
552-569): only the workspace-relative exclusion entry `src/watch.rs`. -/
def wWsExcl : Watch :=
  { watch_paths := [], exclude_paths := [],
    workspace_exclude_paths := [[compSrc, compWatchRs]], debounce := 0 }

/-- A `Watch` watching the single root `root` with a 2-unit debounce. -/
def wRootDeb2 : Watch :=
  { watch_paths := [[compRoot]], exclude_paths := [],
    workspace_exclude_paths := [], debounce := 2 }

/-- A concrete running child process (pid 7) that reacts to `SIGTERM`. -/
def procA : ChildProc := { pid := 7, st := .runningP, termExits := true }

/-- A concrete spawn environment where command `0`'s executable is missing
and every other command spawns a successfully-exiting child. -/
def spawnResC3 : Nat → Except SpawnErr ChildRun :=
  fun c => if c = 0 then .error .notFound else .ok { exitSuccess := true }

/-- A concrete spawn environment where every command spawns a child that
exits with a failure status. -/
def spawnResC8 : Nat → Except SpawnErr ChildRun :=
  fun _ => .ok { exitSuccess := false }

/-!
A concrete schedule of the interleaving model with a two-command pipeline:
generation 0's first command exits successfully and an accepted change
arrives just before generation 0's thread spawns its second command; the
loop's `terminate` call only sees (and reaps) the slot's already-exited
first command and returns, generation 1's thread spawns its first command,
and then generation 0's thread — never told to stop — spawns its second.
-/

/-- Trace state 0: initial state, pipeline of two commands. -/
def cexT0 : RunState := initState 2

/-- Trace state 1: the loop created generation 0's pipeline thread. -/
def cexT1 : RunState :=
  { cexT0 with pipes := Function.update cexT0.pipes cexT0.loopGen (some (.spawnCmd 0)),
               loopPh := .recvEvent }

/-- Trace state 2: generation 0's thread spawned command `(0,0)`. -/
def cexT2 : RunState :=
  { cexT1 with child := Function.update cexT1.child (0, 0) .runningC,
               pipes := Function.update cexT1.pipes 0 (some (.replAcquire 0)) }

/-- Trace state 3: `(0,0)` was put into the shared slot. -/
def cexT3 : RunState :=
  { cexT2 with slot := some (0, 0),
               pipes := Function.update cexT2.pipes 0 (some (.waitAcquire 0)) }

/-- Trace state 4: generation 0's thread entered `wait`, holding the mutex. -/
def cexT4 : RunState :=
  { cexT3 with lock := some (.pipeThread 0),
               pipes := Function.update cexT3.pipes 0 (some (.waiting 0 cexT3.slot)) }

/-- Trace state 5: command `(0,0)` exited successfully on its own. -/
def cexT5 : RunState :=
  { cexT4 with child := Function.update cexT4.child (0, 0) (.exitedC true) }

/-- Trace state 6: `wait` observed the successful exit, released the mutex,
and the pipeline moved on to command index 1. -/
def cexT6 : RunState :=
  { cexT5 with lock := none,
               pipes := Function.update cexT5.pipes 0
                 (some (if true then PipePhase.spawnCmd (0 + 1) else .doneP)) }

/-- Trace state 7: the event handler accepted a change and signalled. -/
def cexT7 : RunState := { cexT6 with pending := cexT6.pending + 1 }

/-- Trace state 8: `rx.recv()` returned; the loop calls `terminate`. -/
def cexT8 : RunState :=
  { cexT7 with pending := cexT7.pending - 1, loopPh := .termAcquire }

/-- Trace state 9: `terminate` locked the slot (still holding the exited
`(0,0)`) and sent it the graceful signal. -/
def cexT9 : RunState :=
  { cexT8 with lock := some .loopThread, loopPh := .termPoll (0, 0) }

/-- Trace state 10: `terminate` saw `(0,0)` already terminated and returned
(slot untouched); the loop starts generation 1. -/
def cexT10 : RunState :=
  { cexT9 with lock := none, loopGen := cexT9.loopGen + 1, loopPh := .spawnGenThread }

/-- Trace state 11: the loop created generation 1's pipeline thread. -/
def cexT11 : RunState :=
  { cexT10 with pipes := Function.update cexT10.pipes cexT10.loopGen (some (.spawnCmd 0)),
                loopPh := .recvEvent }

/-- Trace state 12: generation 1's thread spawned its first command
`(1,0)`. -/
def cexT12 : RunState :=
  { cexT11 with child := Function.update cexT11.child (1, 0) .runningC,
                pipes := Function.update cexT11.pipes 1 (some (.replAcquire 0)) }

/-- Trace state 13: generation 0's thread — still running its pipeline —
spawned its second command `(0,1)`, concurrently with `(1,0)`. -/
def cexT13 : RunState :=
  { cexT12 with child := Function.update cexT12.child (0, 1) .runningC,
                pipes := Function.update cexT12.pipes 0 (some (.replAcquire 1)) }

/-!
Theorems.  First, joined-path string lemmas used by the hidden/backup
characterization.
-/

theorem pathStr_single (c : PathComp) : pathStr [c] = c := by
  simp [pathStr, List.intercalate]

theorem pathStr_cons (c : PathComp) (p : PathM) (hp : p ≠ []) :
    pathStr (c :: p) = c ++ '/' :: pathStr p := by
  cases p with
  | nil => exact absurd rfl hp
  | cons d ds => simp [pathStr, List.intercalate, List.intersperse]

theorem pathStr_head (c : PathComp) (p : PathM) (hc : c ≠ []) :
    (pathStr (c :: p)).head? = c.head? := by
  cases p with
  | nil => rw [pathStr_single]
  | cons d ds =>
      rw [pathStr_cons c (d :: ds) (by simp), List.head?_append]
      cases c with
      | nil => exact absurd rfl hc
      | cons a c' => simp

theorem pathStr_getLast (p : PathM) (c : PathComp) (hc : c ≠ []) :
    (pathStr (p ++ [c])).getLast? = c.getLast? := by
  induction p with
  | nil => rw [List.nil_append, pathStr_single]
  | cons d ds ih =>
      have hne : ds ++ [c] ≠ [] := by simp
      rw [List.cons_append, pathStr_cons d (ds ++ [c]) hne]
      have hsplit : d ++ '/' :: pathStr (ds ++ [c]) =
          (d ++ ['/']) ++ pathStr (ds ++ [c]) := by simp
      rw [hsplit, List.getLast?_append, ih]
      cases hcl : c.getLast? with
      | none => exact absurd (List.getLast?_eq_none_iff.mp hcl) hc
      | some a => simp

/-- C6: the debouncer's `accept(now)` returns true and sets `last_accepted`
to `now` iff `now - last_accepted ≥ debounce`, and otherwise returns false
leaving the state unchanged; with `debounce = 2`, `accept(t0)` then
`accept(t0+1)` yields `(true, false)` while `accept(t0)` then
`accept(t0+3)` yields `(true, true)` (given the first call is accepted);
and `handle_event` updates its `command_start` to `now` exactly when it
sends a restart signal. -/
theorem C6_debounce_accept :
    (∀ (d : DebouncerM) (now : Nat),
        ((d.accept now).1 = true ↔ d.debounce ≤ now - d.last_accepted)
        ∧ (d.accept now).2.last_accepted =
            (if d.debounce ≤ now - d.last_accepted then now else d.last_accepted)
        ∧ (d.accept now).2.debounce = d.debounce)
    ∧ (∀ t0 last : Nat, 2 ≤ t0 - last →
        DebouncerM.accept ⟨2, last⟩ t0 = (true, ⟨2, t0⟩)
        ∧ DebouncerM.accept ⟨2, t0⟩ (t0 + 1) = (false, ⟨2, t0⟩)
        ∧ DebouncerM.accept ⟨2, t0⟩ (t0 + 3) = (true, ⟨2, t0 + 3⟩))
    ∧ (∀ (h : WatchEventHandlerM) (fs : PathM → Bool) (wr : PathM) (now : Nat)
        (ev : Except WatchErrM EventM),
        (handle_event h fs wr now ev).2.command_start =
          (if (handle_event h fs wr now ev).1 then now else h.command_start)) := by
  refine ⟨?_, ?_, ?_⟩
  · intro d now
    refine ⟨?_, ?_, ?_⟩
    · unfold DebouncerM.accept; split <;> simp_all
    · unfold DebouncerM.accept; split <;> simp_all
    · unfold DebouncerM.accept; split <;> rfl
  · intro t0 last h
    have h1 : t0 + 1 - t0 = 1 := by omega
    have h3 : t0 + 3 - t0 = 3 := by omega
    refine ⟨by simp [DebouncerM.accept, h], by simp [DebouncerM.accept, h1],
      by simp [DebouncerM.accept, h3]⟩
  · intro h fs wr now ev
    cases ev with
    | error e => rfl
    | ok event => simp only [handle_event]; split <;> simp

/-- Witness for C6 at debounce 2, `last_accepted = 0`, `t0 = 5`. -/
theorem C6_debounce_accept_witness :
    DebouncerM.accept ⟨2, 0⟩ 5 = (true, ⟨2, 5⟩)
    ∧ DebouncerM.accept ⟨2, 5⟩ 6 = (false, ⟨2, 5⟩)
    ∧ DebouncerM.accept ⟨2, 5⟩ 8 = (true, ⟨2, 8⟩) :=
  C6_debounce_accept.2.1 5 0 (by decide)

/-- C10: the debounce clock starts when `Watch::run` constructs the event
handler (`command_start := Instant::now()`), so any event arriving less
than `debounce` after `run` begins is rejected — even the very first
event. -/
theorem C10_debounce_clock_starts_at_run (w : Watch) (startTime : Nat)
    (fs : PathM → Bool) (wr : PathM) (now : Nat) (ev : Except WatchErrM EventM)
    (h : now - startTime < w.debounce) :
    (handle_event (w.mkHandler startTime) fs wr now ev).1 = false := by
  cases ev with
  | error e => rfl
  | ok event =>
      have hd : decide (w.debounce ≤ now - startTime) = false :=
        decide_eq_false (by omega)
      simp only [handle_event, Watch.mkHandler]
      simp [hd]

/-- Witness for C10: an event 1 unit after startup with debounce 2 is
rejected. -/
theorem C10_debounce_clock_starts_at_run_witness :
    1 - 0 < wRootDeb2.debounce
    ∧ (handle_event (wRootDeb2.mkHandler 0) (fun _ => true) [compRoot] 1
        (.ok { paths := [[compRoot, compFile]], kind := .modify .dataM })).1 = false :=
  ⟨by decide, C10_debounce_clock_starts_at_run wRootDeb2 0 (fun _ => true) [compRoot] 1
    (.ok { paths := [[compRoot, compFile]], kind := .modify .dataM }) (by decide)⟩

/-- C7: exclusion is a component-wise prefix match, not a substring match:
any path with a configured `exclude_paths` entry as a component-wise prefix
is excluded; a path that merely shares a string prefix with an entry
(`src/watch.rsx` vs entry `src/watch.rs`) is not excluded, and — as in the
`exclude_relative_path` test — a proper ancestor (`src`) of an excluded
workspace-relative path (`src/watch.rs`) is not excluded. -/
theorem C7_exclusion_component_prefix :
    (∀ (w : Watch) (wr E P : PathM),
        E ∈ w.exclude_paths → E.isPrefixOf P = true →
        w.is_excluded_path wr P = true)
    ∧ ((pathStr [compSrc, compWatchRs]).isPrefixOf (pathStr [compSrc, compWatchRsX]) = true
        ∧ List.isPrefixOf [compSrc, compWatchRs] [compSrc, compWatchRsX] = false
        ∧ wExcl.is_excluded_path [compRoot] [compSrc, compWatchRsX] = false
        ∧ wExcl.is_excluded_path [compRoot] [compSrc, compWatchRs, compFile] = true)
    ∧ (wWsExcl.is_excluded_path [compRoot] [compRoot, compSrc, compWatchRs] = true
        ∧ wWsExcl.is_excluded_path [compRoot] [compRoot, compSrc] = false) := by
  refine ⟨?_, by decide, by decide⟩
  intro w wr E P hE hpre
  have hany : w.exclude_paths.any (fun x => x.isPrefixOf P) = true :=
    List.any_eq_true.mpr ⟨E, hE, hpre⟩
  simp [Watch.is_excluded_path, hany]

/-- Witness for C7 at the entry `src/watch.rs` and the path
`src/watch.rs/file`. -/
theorem C7_exclusion_component_prefix_witness :
    [compSrc, compWatchRs] ∈ wExcl.exclude_paths
    ∧ List.isPrefixOf [compSrc, compWatchRs] [compSrc, compWatchRs, compFile] = true
    ∧ wExcl.is_excluded_path [compRoot] [compSrc, compWatchRs, compFile] = true :=
  ⟨by decide, by decide,
    C7_exclusion_component_prefix.1 wExcl [compRoot] [compSrc, compWatchRs]
      [compSrc, compWatchRs, compFile] (by decide) (by decide)⟩

/-- C4 counterexample: the claim says any path with a component starting
with `.` (or ending in `~`) anywhere is ignored, e.g. `src/.hidden/file`
and `foo~/bar`; but the code only tests the first character (resp. last
character) of the whole relative path: `root/src/.hidden/file` is not
hidden and `root/foo~/bar` is not a backup file, and a modify event on
either path does trigger a restart signal. -/
theorem C4_hidden_backup_counterexample :
    wRootOnly.is_hidden_path [compRoot, compSrc, compHiddenDir, compFile] = false
    ∧ (handle_event (wRootOnly.mkHandler 0) (fun _ => true) [compRoot] 0
        (.ok { paths := [[compRoot, compSrc, compHiddenDir, compFile]],
               kind := .modify .dataM })).1 = true
    ∧ wRootOnly.is_backup_file [compRoot, compFooTilde, compBar] = false
    ∧ (handle_event (wRootOnly.mkHandler 0) (fun _ => true) [compRoot] 0
        (.ok { paths := [[compRoot, compFooTilde, compBar]],
               kind := .modify .dataM })).1 = true := by decide

/-- C4 (amended): relative to a containing watch root, a path is treated
as hidden iff its FIRST component starts with `.` and as a backup file iff
its LAST component ends with `~` (the code applies `starts_with('.')` /
`ends_with('~')` to the joined relative-path string, not to every
component); so `.git/HEAD` and `src/main.rs~` under the root are ignored,
while `src/.hidden/file` and `foo~/bar` are not. -/
theorem C4_hidden_backup_amended :
    (∀ (c : PathComp) (rest : PathM), c ≠ [] →
        ((pathStr (c :: rest)).head? == some '.') = (c.head? == some '.'))
    ∧ (∀ (pre : PathM) (c : PathComp), c ≠ [] →
        ((pathStr (pre ++ [c])).getLast? == some '~') = (c.getLast? == some '~'))
    ∧ (wRootOnly.is_hidden_path [compRoot, compDotGit, compHead] = true
        ∧ wRootOnly.is_backup_file [compRoot, compSrc, compMainBak] = true
        ∧ wRootOnly.is_hidden_path [compRoot, compSrc, compHiddenDir, compFile] = false
        ∧ wRootOnly.is_backup_file [compRoot, compFooTilde, compBar] = false) := by
  refine ⟨?_, ?_, by decide⟩
  · intro c rest hc
    rw [pathStr_head c rest hc]
  · intro pre c hc
    rw [pathStr_getLast pre c hc]

/-- Witness for C4 (amended) at the relative paths `.git/HEAD` and
`src/main.rs~`. -/
theorem C4_hidden_backup_amended_witness :
    compDotGit ≠ []
    ∧ ((pathStr (compDotGit :: [compHead])).head? == some '.') =
        (compDotGit.head? == some '.')
    ∧ ((pathStr ([compSrc] ++ [compMainBak])).getLast? == some '~') =
        (compMainBak.getLast? == some '~') :=
  ⟨by decide, C4_hidden_backup_amended.1 compDotGit [compHead] (by decide),
    C4_hidden_backup_amended.2.1 [compSrc] compMainBak (by decide)⟩

/-- C5 counterexample: the claim says every pure creation event and every
rename event is ignored; but the code only filters the exact kinds
`Create(CreateKind::Any)` and `Modify(ModifyKind::Name(RenameMode::Any))`,
so a `Create(CreateKind::File)` event and a
`Modify(Name(RenameMode::To))` event on a plain watched file do trigger a
restart signal. -/
theorem C5_event_kind_counterexample :
    (handle_event (wRootOnly.mkHandler 0) (fun _ => true) [compRoot] 0
      (.ok { paths := [[compRoot, compFile]], kind := .create .fileC })).1 = true
    ∧ (handle_event (wRootOnly.mkHandler 0) (fun _ => true) [compRoot] 0
      (.ok { paths := [[compRoot, compFile]],
             kind := .modify (.nameM .toR) })).1 = true := by decide

/-- C5 (amended): only events whose kind is exactly `Create(Any)` or
`Modify(Name(Any))` are unconditionally ignored by the handler; creation
or rename events with any other sub-kind can trigger a restart (shown by
the counterexample). -/
theorem C5_event_kind_amended (h : WatchEventHandlerM) (fs : PathM → Bool)
    (wr : PathM) (now : Nat) (ev : EventM)
    (hk : ev.kind = .create .anyC ∨ ev.kind = .modify (.nameM .anyR)) :
    (handle_event h fs wr now (.ok ev)).1 = false := by
  have hfalse : (ev.paths.any fun x =>
      !(h.watch.is_excluded_path wr x)
      && fs x
      && !(h.watch.is_hidden_path x)
      && !(h.watch.is_backup_file x)
      && !(ev.kind == EventKind.create CreateKind.anyC)
      && !(ev.kind == EventKind.modify (ModifyKind.nameM RenameMode.anyR))
      && decide (h.watch.debounce ≤ now - h.command_start)) = false := by
    rcases hk with hk | hk <;> · rw [hk]; induction ev.paths <;> simp_all
  simp [handle_event, hfalse]

/-- Witness for C5 (amended) at a concrete `Create(Any)` event. -/
theorem C5_event_kind_amended_witness :
    (handle_event (wRootOnly.mkHandler 0) (fun _ => true) [compRoot] 0
      (.ok { paths := [[compRoot, compFile]], kind := .create .anyC })).1 = false :=
  C5_event_kind_amended (wRootOnly.mkHandler 0) (fun _ => true) [compRoot] 0
    { paths := [[compRoot, compFile]], kind := .create .anyC } (Or.inl rfl)

/-- C2 counterexample: the claim says `terminate()` clears the child slot
and a second consecutive call sends no further kill signal; but after
terminating the live child `procA` the slot still holds the (exited)
child, and the second call sends `SIGTERM` to its pid again. -/
theorem C2_terminate_counterexample :
    (SharedChild.terminate (some procA)).1 ≠ none
    ∧ (SharedChild.terminate (SharedChild.terminate (some procA)).1).2 ≠ [] := by
  decide

/-- C2 (amended): `terminate()` on an empty slot is a no-op that sends no
signal; terminating a live child leaves the slot holding the now-exited
child rather than clearing it, so a second consecutive call re-sends the
graceful `SIGTERM` to the stored pid — but never the forceful kill, since
`try_wait` reports the recorded exit — and leaves the state unchanged. -/
theorem C2_terminate_amended :
    SharedChild.terminate none = (none, [])
    ∧ (∀ c : ChildProc,
        (SharedChild.terminate (some c)).1 = some { c with st := .exitedP }
        ∧ SharedChild.terminate (some { c with st := ProcState.exitedP }) =
            (some { c with st := .exitedP }, [Sig.sigterm c.pid])) := by
  refine ⟨rfl, ?_⟩
  intro c
  rcases c with ⟨pid, st, te⟩
  cases st <;> cases te <;> exact ⟨rfl, rfl⟩

/-- C3 counterexample: the claim says a spawn failure on the very first
generation (before any file-change event) is fatal to the whole run; but
with command `0`'s executable missing, `Watch::run` still returns `Ok(())`
and the loop goes on: the next accepted change retries and generation 1
spawns its command. -/
theorem C3_first_spawn_failure_counterexample :
    Watch.runModel (.ok ()) spawnResC3 [[0], [1]] = .ok ()
    ∧ runLoopTrace spawnResC3 none [[0], [1]] =
        (some { exitSuccess := true }, [[0], [1]]) := ⟨rfl, rfl⟩

/-- C3 (amended): a command spawn failure is never fatal to the run, not
even on the very first generation: the callback logs it and returns
`false`, which only aborts the rest of that generation's pipeline (the
child slot is left as it was), and the loop keeps watching so the next
accepted change retries a spawn. -/
theorem C3_spawn_failure_amended :
    (∀ (α : Type) (spawnRes : α → Except SpawnErr ChildRun) (gens : List (List α)),
        Watch.runModel (.ok ()) spawnRes gens = .ok ())
    ∧ (∀ (α : Type) (spawnRes : α → Except SpawnErr ChildRun)
        (slot : Option ChildRun) (e : SpawnErr) (c : α) (cs : List α),
        spawnRes c = .error e →
        runGeneration spawnRes slot (c :: cs) = (slot, [c])) := by
  refine ⟨fun α spawnRes gens => rfl, ?_⟩
  intro α spawnRes slot e c cs h
  simp [runGeneration, spawnWithCallback, runCallback, h]

/-- Witness for C3 (amended): generation `[0, 5]` with command `0` failing
to spawn stops after command `0` and leaves the slot unchanged. -/
theorem C3_spawn_failure_amended_witness :
    spawnResC3 0 = .error .notFound
    ∧ runGeneration spawnResC3 none [0, 5] = (none, [0]) :=
  ⟨rfl, C3_spawn_failure_amended.2 Nat spawnResC3 none .notFound 0 [5] rfl⟩

/-- C8: pipeline execution short-circuits on failure: in a three-command
generation whose first command spawns a child that exits with a failure
status, the callback returns `false` and `CommandList::spawn` breaks, so
the second and third commands are never spawned. -/
theorem C8_pipeline_short_circuit (α : Type)
    (spawnRes : α → Except SpawnErr ChildRun) (slot : Option ChildRun)
    (c1 c2 c3 : α) (child : ChildRun) (h1 : spawnRes c1 = .ok child)
    (h2 : child.exitSuccess = false) :
    runGeneration spawnRes slot [c1, c2, c3] = (some child, [c1]) := by
  simp [runGeneration, spawnWithCallback, runCallback, h1, h2]

/-- Witness for C8 at a concrete three-command pipeline whose first
command exits with failure. -/
theorem C8_pipeline_short_circuit_witness :
    spawnResC8 0 = .ok { exitSuccess := false }
    ∧ ChildRun.exitSuccess { exitSuccess := false } = false
    ∧ runGeneration spawnResC8 none [0, 1, 2] =
        (some { exitSuccess := false }, [0]) :=
  ⟨rfl, rfl, C8_pipeline_short_circuit Nat spawnResC8 none 0 1 2
    { exitSuccess := false } rfl rfl⟩

/-- C9 counterexample: the claim says an empty pipeline is rejected at
construction and can never reach `run`; but the `From<Vec<Command>>`
conversion is total and returns an (empty) `CommandList` for the empty
vector — there is no rejection — and the run loop reaches
`CommandList::spawn` with it, which simply iterates zero times. -/
theorem C9_empty_pipeline_counterexample :
    commandListFromVec ([] : List Nat) = { commands := [] }
    ∧ (commandListFromVec ([] : List Nat)).is_empty = true
    ∧ runGeneration spawnResC3 none ([] : List Nat) = (none, [])
    ∧ Watch.runModel (.ok ()) spawnResC3 [([] : List Nat)] = .ok () :=
  ⟨rfl, rfl, rfl, rfl⟩

/-- C9 (amended): an empty command pipeline is NOT rejected at
construction — the `Vec`-to-`CommandList` conversion wraps any list
unchanged (`is_empty` exists but `run` never consults it) — and `run`
handles it at run time trivially: each generation spawns nothing and the
loop keeps running. -/
theorem C9_empty_pipeline_amended :
    (∀ (α : Type) (l : List α),
        (commandListFromVec l).commands = l
        ∧ (commandListFromVec l).is_empty = l.isEmpty)
    ∧ (∀ (α : Type) (spawnRes : α → Except SpawnErr ChildRun)
        (slot : Option ChildRun),
        runGeneration spawnRes slot ([] : List α) = (slot, [])) :=
  ⟨fun _ _ => ⟨rfl, rfl⟩, fun _ _ _ => rfl⟩

/-!
Invariant of the interleaving model: a command of generation `g` is only
ever spawned once the loop thread has completed `g` `terminate()` calls
(`loopGen = g`), i.e. after `terminate` on generation `g - 1` returned.
-/

theorem pipes_update_le {f : Nat → Option PipePhase} {L g0 : Nat} {x : PipePhase}
    (ih : ∀ g, f g ≠ none → g ≤ L) (hg0 : g0 ≤ L) :
    ∀ g, Function.update f g0 (some x) g ≠ none → g ≤ L := by
  intro g hg
  rcases eq_or_ne g g0 with rfl | hne
  · exact hg0
  · exact ih g (by rwa [Function.update_noteq hne] at hg)

theorem pipes_update_ne_none {f : Nat → Option PipePhase} {g0 : Nat}
    {x : PipePhase} {g : Nat} (h : g ≠ g0 → f g ≠ none) :
    Function.update f g0 (some x) g ≠ none := by
  rcases eq_or_ne g g0 with rfl | hne
  · rw [Function.update_same]; simp
  · rw [Function.update_noteq hne]; exact h hne

theorem child_update_preserve {f : Nat × Nat → CStatus} {c0 : Nat × Nat}
    {v : CStatus} (hv0 : f c0 ≠ .notSpawned) {c : Nat × Nat}
    (hc : Function.update f c0 v c ≠ CStatus.notSpawned) :
    f c ≠ .notSpawned := by
  rcases eq_or_ne c c0 with rfl | hne
  · exact hv0
  · rwa [Function.update_noteq hne] at hc

theorem step_preserves_genBound {s s' : RunState} (hst : Step s s')
    (ih1 : ∀ g, s.pipes g ≠ none → g ≤ s.loopGen)
    (ih2 : ∀ c : Nat × Nat, s.child c ≠ .notSpawned → s.pipes c.1 ≠ none) :
    (∀ g, s'.pipes g ≠ none → g ≤ s'.loopGen)
    ∧ (∀ c : Nat × Nat, s'.child c ≠ .notSpawned → s'.pipes c.1 ≠ none) := by
  cases hst with
  | loopSpawnThread h =>
      exact ⟨pipes_update_le ih1 le_rfl,
        fun c hc => pipes_update_ne_none (fun _ => ih2 c hc)⟩
  | loopRecv h hp => exact ⟨ih1, ih2⟩
  | loopTermEmpty h hl hs =>
      exact ⟨fun g hg => Nat.le_succ_of_le (ih1 g hg), ih2⟩
  | loopTermSig c h hl hs => exact ⟨ih1, ih2⟩
  | loopTermObserveExit c h hc =>
      exact ⟨fun g hg => Nat.le_succ_of_le (ih1 g hg), ih2⟩
  | loopTermForceKill c h hc =>
      refine ⟨fun g hg => Nat.le_succ_of_le (ih1 g hg), fun c' hc' => ?_⟩
      exact ih2 c' (child_update_preserve (by rw [hc]; simp) hc')
  | cmdSpawn g i h hi =>
      refine ⟨pipes_update_le ih1 (ih1 g (by rw [h]; simp)), fun c' hc' => ?_⟩
      apply pipes_update_ne_none
      intro hne
      have hne2 : c' ≠ (g, i) := by
        intro he; rw [he] at hne; exact hne rfl
      have hred : Function.update s.child (g, i) CStatus.runningC c' ≠
          CStatus.notSpawned := hc'
      exact ih2 c' (by rwa [Function.update_noteq hne2] at hred)
  | cmdsExhausted g i h hi =>
      exact ⟨pipes_update_le ih1 (ih1 g (by rw [h]; simp)),
        fun c' hc' => pipes_update_ne_none (fun _ => ih2 c' hc')⟩
  | childReplace g i h hl =>
      exact ⟨pipes_update_le ih1 (ih1 g (by rw [h]; simp)),
        fun c' hc' => pipes_update_ne_none (fun _ => ih2 c' hc')⟩
  | waitLock g i h hl =>
      exact ⟨pipes_update_le ih1 (ih1 g (by rw [h]; simp)),
        fun c' hc' => pipes_update_ne_none (fun _ => ih2 c' hc')⟩
  | waitObserve g i c b h hc =>
      exact ⟨pipes_update_le ih1 (ih1 g (by rw [h]; simp)),
        fun c' hc' => pipes_update_ne_none (fun _ => ih2 c' hc')⟩
  | waitEmptySlot g i h =>
      exact ⟨pipes_update_le ih1 (ih1 g (by rw [h]; simp)),
        fun c' hc' => pipes_update_ne_none (fun _ => ih2 c' hc')⟩
  | childExits c b hc =>
      exact ⟨ih1, fun c' hc' =>
        ih2 c' (child_update_preserve (by rw [hc]; simp) hc')⟩
  | eventArrives => exact ⟨ih1, ih2⟩

theorem reach_genBound {s : RunState} (hs : Reach s) :
    (∀ g, s.pipes g ≠ none → g ≤ s.loopGen)
    ∧ (∀ c : Nat × Nat, s.child c ≠ .notSpawned → s.pipes c.1 ≠ none) := by
  induction hs with
  | init n => constructor <;> intro x hx <;> simp [initState] at hx
  | step hr hstep ih => exact step_preserves_genBound hstep ih.1 ih.2

/-!
Reachability of the concrete interleaved schedule `cexT0 … cexT13`.
-/

theorem reach_cexT0 : Reach cexT0 := Reach.init 2

theorem reach_cexT1 : Reach cexT1 :=
  Reach.step reach_cexT0 (Step.loopSpawnThread cexT0 rfl)

theorem reach_cexT2 : Reach cexT2 :=
  Reach.step reach_cexT1 (Step.cmdSpawn cexT1 0 0 rfl (by decide))

theorem reach_cexT3 : Reach cexT3 :=
  Reach.step reach_cexT2 (Step.childReplace cexT2 0 0 rfl rfl)

theorem reach_cexT4 : Reach cexT4 :=
  Reach.step reach_cexT3 (Step.waitLock cexT3 0 0 rfl rfl)

theorem reach_cexT5 : Reach cexT5 :=
  Reach.step reach_cexT4 (Step.childExits cexT4 (0, 0) true rfl)

theorem reach_cexT6 : Reach cexT6 :=
  Reach.step reach_cexT5 (Step.waitObserve cexT5 0 0 (0, 0) true rfl rfl)

theorem reach_cexT7 : Reach cexT7 :=
  Reach.step reach_cexT6 (Step.eventArrives cexT6)

theorem reach_cexT8 : Reach cexT8 :=
  Reach.step reach_cexT7 (Step.loopRecv cexT7 rfl (by decide))

theorem reach_cexT9 : Reach cexT9 :=
  Reach.step reach_cexT8 (Step.loopTermSig cexT8 (0, 0) rfl rfl rfl)

theorem reach_cexT10 : Reach cexT10 :=
  Reach.step reach_cexT9 (Step.loopTermObserveExit cexT9 (0, 0) rfl (by decide))

theorem reach_cexT11 : Reach cexT11 :=
  Reach.step reach_cexT10 (Step.loopSpawnThread cexT10 rfl)

theorem reach_cexT12 : Reach cexT12 :=
  Reach.step reach_cexT11 (Step.cmdSpawn cexT11 1 0 rfl (by decide))

theorem reach_cexT13 : Reach cexT13 :=
  Reach.step reach_cexT12 (Step.cmdSpawn cexT12 0 1 rfl (by decide))

/-- C1 counterexample: the claim says no two pipeline generations' commands
ever run concurrently; but in the reachable state `cexT13` generation 0's
second command `(0,1)` and generation 1's first command `(1,0)` are both
running: `terminate` (called between the two generations) only signalled
the slot's already-exited first command, and generation 0's detached
pipeline thread then spawned its second command after generation 1 had
already started. -/
theorem C1_concurrent_generations_counterexample :
    Reach cexT13 ∧ cexT13.child (0, 1) = CStatus.runningC
    ∧ cexT13.child (1, 0) = CStatus.runningC :=
  ⟨reach_cexT13, by decide, by decide⟩

/-- C1 (amended): the loop thread itself is sequential — a command of
generation `N+1` is never spawned before the loop's `terminate()` call on
generation `N` has returned (`loopGen` counts exactly the completed
`terminate` calls, and in every reachable state a spawned generation-`N+1`
command implies `loopGen ≥ N+1`) — but the claim's second half fails: a
later command of generation `N`'s pipeline can still be spawned after that
`terminate` returns, so two generations' commands can run concurrently
(see the counterexample). -/
theorem C1_generation_after_terminate {s : RunState} (hs : Reach s)
    (g i : Nat) (hc : s.child (g + 1, i) ≠ CStatus.notSpawned) :
    g + 1 ≤ s.loopGen :=
  (reach_genBound hs).1 (g + 1) ((reach_genBound hs).2 (g + 1, i) hc)

/-- Witness for C1 (amended) at the reachable state `cexT12`, where
generation 1's first command has been spawned and the loop has indeed
completed its `terminate` call on generation 0. -/
theorem C1_generation_after_terminate_witness :
    cexT12.child (0 + 1, 0) ≠ CStatus.notSpawned ∧ 0 + 1 ≤ cexT12.loopGen :=
  ⟨by decide, C1_generation_after_terminate reach_cexT12 0 0 (by decide)⟩
